import Mathlib

/-!
A shallow embedding of `src/libpanic_unwind/seh.rs`, the Windows SEH panic
backend: the exception descriptor statics, the architecture-conditional
pointer encoding (`ptr!`), the `panic` routine (modelled as a pure function
returning the updated descriptor state, the trace of its stores and of the
raise call, and its return code), the payload codec (`panic`'s flattening and
`cleanup`), and the `rust_eh_personality` stub.
Machine integers are modelled as `Nat` with explicit `% 2^w` truncation at
the casts the source performs.
-/

namespace Seh

/-- The two build-time variants of the `imp` module: `#[cfg(target_arch =
"x86")]` and `#[cfg(target_arch = "x86_64")]`. -/
inductive Arch
  | x86
  | x86_64
deriving DecidableEq, Repr

/-- `imp::OFFSET`: `4` in the x86 variant, `8` in the x86_64 variant. -/
def OFFSET : Arch → Int
  | .x86 => 4
  | .x86_64 => 8

/-- Width bound of a target pointer: `2^32` on x86, `2^64` on x86_64.
Casting an integer to a pointer type truncates modulo this bound. -/
def ptrBound : Arch → Nat
  | .x86 => 2 ^ 32
  | .x86_64 => 2 ^ 64

/-- Wrapping subtraction on `usize` for the 64-bit target, as performed by
`($e as usize) - (&imp::__ImageBase as *const _ as usize)`. -/
def wrapSub64 (a b : Nat) : Nat :=
  (a % 2 ^ 64 + 2 ^ 64 - b % 2 ^ 64) % 2 ^ 64

/-- The `ptr!` macro of the two `imp` modules.  The macro's literal-`0` arm
(a null reference) yields the value `0` in both variants; the expression arm
yields the raw address on x86 (`$e as *mut u8`) and
`(($e as usize) - (&imp::__ImageBase as *const _ as usize)) as u32` — the
offset from the module load base truncated to 32 bits — on x86_64. -/
def ptrEncode (arch : Arch) (imageBase addr : Nat) : Nat :=
  if addr = 0 then 0
  else
    match arch with
    | .x86 => addr
    | .x86_64 => wrapSub64 addr imageBase % 2 ^ 32

/-- `_ThrowInfo` (field `attribues` is spelled as in the source). Reference
fields hold the encoded `ptr_t` value. -/
structure _ThrowInfo where
  attribues : Nat
  pnfnUnwind : Nat
  pForwardCompat : Nat
  pCatchableTypeArray : Nat
deriving DecidableEq, Repr

/-- `_CatchableTypeArray` with its two-entry array of encoded references. -/
structure _CatchableTypeArray where
  nCatchableTypes : Int
  arrayOfCatchableTypes : Nat × Nat
deriving DecidableEq, Repr

/-- `_PMD`: the this-pointer displacement triple. -/
structure _PMD where
  mdisp : Int
  pdisp : Int
  vdisp : Int
deriving DecidableEq, Repr

/-- `_CatchableType`. -/
structure _CatchableType where
  properties : Nat
  pType : Nat
  thisDisplacement : _PMD
  sizeOrOffset : Int
  copy_function : Nat
deriving DecidableEq, Repr

/-- Initial value of `static mut THROW_INFO` (all reference fields `ptr!(0)`). -/
def THROW_INFO_init : _ThrowInfo :=
  { attribues := 0
    pnfnUnwind := 0
    pForwardCompat := 0
    pCatchableTypeArray := 0 }

/-- Initial value of `static mut CATCHABLE_TYPE_ARRAY`. -/
def CATCHABLE_TYPE_ARRAY_init : _CatchableTypeArray :=
  { nCatchableTypes := 2
    arrayOfCatchableTypes := (0, 0) }

/-- Initial value of `static mut CATCHABLE_TYPE1`; `sizeOrOffset` is
`imp::OFFSET` of the selected build variant. -/
def CATCHABLE_TYPE1_init (arch : Arch) : _CatchableType :=
  { properties := 1
    pType := 0
    thisDisplacement := { mdisp := 0, pdisp := -1, vdisp := 0 }
    sizeOrOffset := OFFSET arch
    copy_function := 0 }

/-- Initial value of `static mut CATCHABLE_TYPE2`. -/
def CATCHABLE_TYPE2_init (arch : Arch) : _CatchableType :=
  { properties := 1
    pType := 0
    thisDisplacement := { mdisp := 0, pdisp := -1, vdisp := 0 }
    sizeOrOffset := OFFSET arch
    copy_function := 0 }

/-- The mutable process-wide descriptor set: the four `static mut`s whose
fields `panic` writes or reads. -/
structure DescriptorState where
  throwInfo : _ThrowInfo
  catchableTypeArray : _CatchableTypeArray
  catchableType1 : _CatchableType
  catchableType2 : _CatchableType
deriving DecidableEq, Repr

/-- The descriptor set as the program starts: the static initializers. -/
def initialState (arch : Arch) : DescriptorState :=
  { throwInfo := THROW_INFO_init
    catchableTypeArray := CATCHABLE_TYPE_ARRAY_init
    catchableType1 := CATCHABLE_TYPE1_init arch
    catchableType2 := CATCHABLE_TYPE2_init arch }

/-- Link-time facts `panic` depends on: the load base (`__ImageBase`) and the
addresses of the five statics it takes the address of. -/
structure Layout where
  imageBase : Nat
  catchableTypeArrayAddr : Nat
  catchableType1Addr : Nat
  catchableType2Addr : Nat
  typeDescriptor1Addr : Nat
  typeDescriptor2Addr : Nat
deriving DecidableEq, Repr

/-- The five descriptor fields `panic` stores into. -/
inductive Field
  | pCatchableTypeArray
  | arrayEntry0
  | arrayEntry1
  | ct1pType
  | ct2pType
deriving DecidableEq, Repr

/-- Observable events of one `panic` call: the atomic 32-bit stores into the
descriptor set, and the `_CxxThrowException` call with the address of the
two-word payload array (modelled by the words themselves) and of
`THROW_INFO`. -/
inductive Event
  | store (f : Field) (v : Nat)
  | raise (payload : Nat × Nat)
deriving DecidableEq, Repr

/-- Whether an event is the `_CxxThrowException` call. -/
def Event.isRaise : Event → Bool
  | .raise _ => true
  | _ => false

/-- The field of a store event, if any. -/
def Event.storeField : Event → Option Field
  | .store f _ => some f
  | _ => none

/-- `Box<dyn Any + Send>` viewed through `raw::TraitObject`: a data pointer
and a vtable pointer (as addresses). -/
structure TraitObject where
  data : Nat
  vtable : Nat
deriving DecidableEq, Repr

/-- The flattening `panic` performs on its payload (lines 256–257):
`transmute` to `raw::TraitObject`, then
`[ptrs.data as u64, ptrs.vtable as u64]` — the data pointer becomes word 0
and the vtable pointer word 1, each cast to `u64`. -/
def panicEncode (p : TraitObject) : Nat × Nat :=
  (p.data % 2 ^ 64, p.vtable % 2 ^ 64)

/-- `pub fn payload() -> [u64; 2]`: the zero-valued placeholder wire form. -/
def payload : Nat × Nat := (0, 0)

/-- `pub unsafe fn cleanup(payload: [u64; 2])`: rebuild the owned trait
object with `data: payload[0] as *mut _, vtable: payload[1] as *mut _`;
the `u64`-to-pointer casts truncate to the target pointer width. -/
def cleanup (arch : Arch) (w : Nat × Nat) : TraitObject :=
  { data := w.1 % ptrBound arch
    vtable := w.2 % ptrBound arch }

/-- Result of one `panic` call: descriptor state on return, event trace, and
the returned `u32` code. -/
structure PanicResult where
  state : DescriptorState
  trace : List Event
  ret : Nat
deriving DecidableEq, Repr

/-- The value a store writes: `ptr!(&STATIC as *const _) as u32`. -/
def storeVal (arch : Arch) (L : Layout) (addr : Nat) : Nat :=
  ptrEncode arch L.imageBase addr % 2 ^ 32

/-- `pub unsafe fn panic(data: Box<dyn Any + Send>) -> u32`: flatten the
payload into two `u64` words, atomically store the five encoded
cross-references into the descriptor set, call `_CxxThrowException`, and —
should that call return — return `u32::max_value()`. -/
def panic (arch : Arch) (L : Layout) (s : DescriptorState) (data : TraitObject) :
    PanicResult :=
  let ptrs := panicEncode data
  let v1 := storeVal arch L L.catchableTypeArrayAddr
  let v2 := storeVal arch L L.catchableType1Addr
  let v3 := storeVal arch L L.catchableType2Addr
  let v4 := storeVal arch L L.typeDescriptor1Addr
  let v5 := storeVal arch L L.typeDescriptor2Addr
  { state :=
      { throwInfo := { s.throwInfo with pCatchableTypeArray := v1 }
        catchableTypeArray :=
          { s.catchableTypeArray with arrayOfCatchableTypes := (v2, v3) }
        catchableType1 := { s.catchableType1 with pType := v4 }
        catchableType2 := { s.catchableType2 with pType := v5 } }
    trace :=
      [ .store .pCatchableTypeArray v1
      , .store .arrayEntry0 v2
      , .store .arrayEntry1 v3
      , .store .ct1pType v4
      , .store .ct2pType v5
      , .raise ptrs ]
    ret := 4294967295 }

/-- Possible outcomes of a runtime hook that either aborts or returns. -/
inductive HookOutcome
  | abortProcess
  | returns
deriving DecidableEq, Repr

/-- `fn rust_eh_personality()` (lang item `eh_personality`): its body is
`unsafe { ::core::intrinsics::abort() }`, nothing else. -/
def rust_eh_personality : HookOutcome := .abortProcess

/-- Fields stored before the first raise event of a trace. -/
def storesBeforeRaise (t : List Event) : List Field :=
  (t.takeWhile fun e => ! e.isRaise).filterMap Event.storeField

/-- The (field, value) pairs of a trace's store events, in order. -/
def storeEvents (t : List Event) : List (Field × Nat) :=
  t.filterMap fun e =>
    match e with
    | .store f v => some (f, v)
    | _ => none

end Seh

namespace Seh

/-- C1: decoding the two-word wire form produced by encoding a payload is the
identity: for every trait-object payload whose two pointers fit the target
pointer width, `cleanup` applied to the two words `panic` flattens it into
yields the payload back. -/
theorem payload_codec_roundtrip (arch : Arch) (p : TraitObject)
    (hd : p.data < ptrBound arch) (hv : p.vtable < ptrBound arch) :
    cleanup arch (panicEncode p) = p := by
  obtain ⟨d, v⟩ := p
  cases arch <;>
    · simp only [cleanup, panicEncode, ptrBound] at *
      refine congrArg₂ TraitObject.mk ?_ ?_ <;> omega

theorem payload_codec_roundtrip_witness :
    (5 : Nat) < ptrBound .x86_64 ∧ (7 : Nat) < ptrBound .x86_64 ∧
    cleanup .x86_64 (panicEncode ⟨5, 7⟩) = ⟨5, 7⟩ :=
  ⟨by decide, by decide,
    payload_codec_roundtrip .x86_64 ⟨5, 7⟩ (by decide) (by decide)⟩

/-- C2: the pointer-encoding policy stores, for a non-null address, the raw
address on x86 and the 32-bit-truncated offset from the module load base on
x86_64; the null reference encodes to the literal 0 on both targets. -/
theorem ptr_encoding_policy (base addr : Nat) (hnz : addr ≠ 0)
    (hle : base ≤ addr) (hlt : addr < 2 ^ 64) :
    ptrEncode .x86 base addr = addr ∧
    ptrEncode .x86_64 base addr = (addr - base) % 2 ^ 32 ∧
    ptrEncode .x86 base 0 = 0 ∧ ptrEncode .x86_64 base 0 = 0 := by
  refine ⟨by simp [ptrEncode, hnz], ?_, rfl, rfl⟩
  simp only [ptrEncode, hnz, if_false, wrapSub64]
  omega

theorem ptr_encoding_policy_witness :
    (4096 : Nat) ≠ 0 ∧ (1024 : Nat) ≤ 4096 ∧ (4096 : Nat) < 2 ^ 64 ∧
    (ptrEncode .x86 1024 4096 = 4096 ∧
     ptrEncode .x86_64 1024 4096 = (4096 - 1024) % 2 ^ 32 ∧
     ptrEncode .x86 1024 0 = 0 ∧ ptrEncode .x86_64 1024 0 = 0) :=
  ⟨by decide, by decide, by decide,
    ptr_encoding_policy 1024 4096 (by decide) (by decide) (by decide)⟩

/-- C3: whatever the inputs, if `_CxxThrowException` returns then `panic`
returns `u32::max_value()` = 2^32 − 1; this is the only value `panic` can
return, since the sentinel is its sole return point. -/
theorem panic_returns_sentinel (arch : Arch) (L : Layout) (s : DescriptorState)
    (d : TraitObject) :
    (panic arch L s d).ret = 2 ^ 32 - 1 := by
  norm_num [panic]

/-- C4: in every execution of `panic`, all five cross-reference stores
(`THROW_INFO.pCatchableTypeArray`, the two `arrayOfCatchableTypes` entries,
and `pType` of both catchable types) occur before the `_CxxThrowException`
call: the trace's raise event is last and is preceded by stores to exactly
those five fields. -/
theorem stores_precede_raise (arch : Arch) (L : Layout) (s : DescriptorState)
    (d : TraitObject) :
    storesBeforeRaise (panic arch L s d).trace =
      [.pCatchableTypeArray, .arrayEntry0, .arrayEntry1, .ct1pType, .ct2pType] ∧
    (panic arch L s d).trace.getLast? = some (.raise (panicEncode d)) :=
  ⟨rfl, rfl⟩

/-- C5: starting from the static initializers, a `panic` call leaves
`pnfnUnwind`, `pForwardCompat` and both `copy_function` fields at zero, and
any subsequent `panic` call (from any reachable state) leaves every field of
the descriptor set exactly as the first call left it. -/
theorem descriptor_fields_stable (arch : Arch) (L : Layout)
    (s : DescriptorState) (d d' : TraitObject) :
    (panic arch L (initialState arch) d).state.throwInfo.pnfnUnwind = 0 ∧
    (panic arch L (initialState arch) d).state.throwInfo.pForwardCompat = 0 ∧
    (panic arch L (initialState arch) d).state.catchableType1.copy_function = 0 ∧
    (panic arch L (initialState arch) d).state.catchableType2.copy_function = 0 ∧
    (panic arch L (panic arch L s d).state d').state = (panic arch L s d).state :=
  ⟨rfl, rfl, rfl, rfl, rfl⟩

/-- C6: the (field, value) pairs stored by `panic` depend only on the build
variant and the link-time layout (static addresses and, on x86_64, the image
base), never on the payload or the current descriptor state, so racing
initializer writes are idempotent. -/
theorem store_values_input_independent (arch : Arch) (L : Layout)
    (s s' : DescriptorState) (d d' : TraitObject) :
    storeEvents (panic arch L s d).trace = storeEvents (panic arch L s' d').trace :=
  rfl

/-- C7: `sizeOrOffset` of both catchable-type entries is the ABI constant of
the target pointer width — 4 on x86 and 8 on x86_64 — and no `panic` call
changes it. -/
theorem sizeOrOffset_abi_constant (arch : Arch) (L : Layout)
    (s : DescriptorState) (d : TraitObject) :
    (CATCHABLE_TYPE1_init .x86).sizeOrOffset = 4 ∧
    (CATCHABLE_TYPE2_init .x86).sizeOrOffset = 4 ∧
    (CATCHABLE_TYPE1_init .x86_64).sizeOrOffset = 8 ∧
    (CATCHABLE_TYPE2_init .x86_64).sizeOrOffset = 8 ∧
    (panic arch L s d).state.catchableType1.sizeOrOffset =
      s.catchableType1.sizeOrOffset ∧
    (panic arch L s d).state.catchableType2.sizeOrOffset =
      s.catchableType2.sizeOrOffset :=
  ⟨rfl, rfl, rfl, rfl, rfl, rfl⟩

/-- C8: the this-pointer displacement triple of both catchable-type entries
is the fixed constant (mdisp 0, pdisp −1, vdisp 0) — zero offset, no virtual
base — identical across entries and build variants, and no `panic` call
modifies it. -/
theorem displacement_fixed (arch arch' : Arch) (L : Layout)
    (s : DescriptorState) (d : TraitObject) :
    (CATCHABLE_TYPE1_init arch).thisDisplacement =
      { mdisp := 0, pdisp := -1, vdisp := 0 } ∧
    (CATCHABLE_TYPE2_init arch).thisDisplacement =
      (CATCHABLE_TYPE1_init arch').thisDisplacement ∧
    (panic arch L s d).state.catchableType1.thisDisplacement =
      s.catchableType1.thisDisplacement ∧
    (panic arch L s d).state.catchableType2.thisDisplacement =
      s.catchableType2.thisDisplacement :=
  ⟨rfl, rfl, rfl, rfl⟩

/-- C9: `rust_eh_personality`, the `eh_personality` lang-item stub, always
aborts the process and never returns. -/
theorem rust_eh_personality_aborts :
    rust_eh_personality = HookOutcome.abortProcess ∧
    rust_eh_personality ≠ HookOutcome.returns :=
  ⟨rfl, by decide⟩

/-- C10: `panic` puts the data pointer in word 0 and the vtable pointer in
word 1 of the wire array, and `cleanup` reads the data pointer from word 0
and the vtable pointer from word 1: for pointers within the target width,
encoding then decoding restores each in its own role, never swapped. -/
theorem wire_word_order (arch : Arch) (d v : Nat)
    (hd : d < ptrBound arch) (hv : v < ptrBound arch) :
    (panicEncode ⟨d, v⟩).1 = d ∧ (panicEncode ⟨d, v⟩).2 = v ∧
    (cleanup arch (panicEncode ⟨d, v⟩)).data = d ∧
    (cleanup arch (panicEncode ⟨d, v⟩)).vtable = v := by
  cases arch <;>
    · simp only [cleanup, panicEncode, ptrBound] at *
      refine ⟨?_, ?_, ?_, ?_⟩ <;> omega

theorem wire_word_order_witness :
    (3 : Nat) < ptrBound .x86 ∧ (9 : Nat) < ptrBound .x86 ∧
    ((panicEncode ⟨3, 9⟩).1 = 3 ∧ (panicEncode ⟨3, 9⟩).2 = 9 ∧
     (cleanup .x86 (panicEncode ⟨3, 9⟩)).data = 3 ∧
     (cleanup .x86 (panicEncode ⟨3, 9⟩)).vtable = 9) :=
  ⟨by decide, by decide, wire_word_order .x86 3 9 (by decide) (by decide)⟩

end Seh
